import Mathlib

/-!
Verification of the Git City backend business rules against their
natural-language specification.  Each section embeds one request handler,
database constraint, or library function of the repository as Lean
definitions (lists model database tables, `Option`/sum types model
nullable columns and HTTP responses), and proves or refutes the spec
claims about them.
-/

namespace GitCity

/-! ## Sky ads (`src/lib/skyAds.ts`) -/

namespace SkyAds

/-- One sky advertisement, mirroring the `SkyAd` interface of
`src/lib/skyAds.ts`.  Optional fields are `Option`; `vehicle` is the
string `"plane"` or `"blimp"`; `priority` is an integer. -/
structure SkyAd where
  id : String
  text : String
  brand : Option String := none
  description : Option String := none
  color : String
  bgColor : String
  link : Option String := none
  vehicle : String
  priority : Int
deriving DecidableEq, Repr

def MAX_PLANES : Nat := 3
def MAX_BLIMPS : Nat := 2
def MAX_TEXT_LENGTH : Nat := 80

/-- One character of the `[0-9a-fA-F]` class of `HEX_COLOR_PATTERN`. -/
def isHexChar (c : Char) : Bool :=
  (('0' ≤ c) && (c ≤ '9')) || (('a' ≤ c) && (c ≤ 'f')) || (('A' ≤ c) && (c ≤ 'F'))

/-- The regular expression `^#[0-9a-fA-F]{6}$` of `skyAds.ts`. -/
def hexColorOk (s : String) : Bool :=
  match s.toList with
  | '#' :: rest => rest.length == 6 && rest.all isHexChar
  | _ => false

/-- The regular expression `^(https:\/\/|mailto:)` (`ALLOWED_LINK_PATTERN`),
checked on the character list of the string. -/
def allowedLinkOk (s : String) : Bool :=
  (("https://").toList).isPrefixOf s.toList || (("mailto:").toList).isPrefixOf s.toList

/-- The filter body of `validateAds`.  Note the JavaScript truthiness test
`ad.link && ...`: an absent link or the empty string skips the pattern
check. -/
def validAd (ad : SkyAd) : Bool :=
  !(ad.text.length > MAX_TEXT_LENGTH)
  && (match ad.link with
      | some l => (l == "") || allowedLinkOk l
      | none => true)
  && hexColorOk ad.color
  && hexColorOk ad.bgColor

/-- The sort order of `validateAds`: the comparator
`(a, b) => b.priority - a.priority` puts higher priorities first. -/
def priorityDesc (a b : SkyAd) : Prop := b.priority ≤ a.priority

instance : DecidableRel priorityDesc := fun a b =>
  inferInstanceAs (Decidable (b.priority ≤ a.priority))

instance : IsTotal SkyAd priorityDesc :=
  ⟨fun a b => le_total b.priority a.priority⟩

instance : IsTrans SkyAd priorityDesc :=
  ⟨fun _ _ _ h1 h2 => le_trans h2 h1⟩

/-- `validateAds`: filter out invalid ads, then sort by priority
descending (a stable sort, modelled by insertion sort). -/
def validateAds (ads : List SkyAd) : List SkyAd :=
  (ads.filter validAd).insertionSort priorityDesc

/-- `getActiveAds`: the valid ads split by vehicle, truncated to the
plane and blimp capacity. -/
def getActiveAds (ads : List SkyAd) : List SkyAd × List SkyAd :=
  ((validateAds ads).filter (fun a => a.vehicle == "plane") |>.take MAX_PLANES,
   (validateAds ads).filter (fun a => a.vehicle == "blimp") |>.take MAX_BLIMPS)

/-- A plane ad whose only flaw is an empty-string `link`: every other
field passes validation, and the empty string is falsy in JavaScript,
so `validateAds` keeps the ad. -/
def emptyLinkAd : SkyAd :=
  { id := "ad1", text := "HELLO", color := "#ffffff", bgColor := "#000000",
    link := some (""), vehicle := "plane", priority := 1 }

/-- A fully valid plane ad, used as a concrete witness input. -/
def goodAd : SkyAd :=
  { id := "ad2", text := "FLY", color := "#a1b2c3", bgColor := "#000000",
    link := some ("https://example.com"), vehicle := "plane", priority := 7 }

end SkyAds

/-! ## Raids table (`supabase/migrations` raid system) -/

namespace Raids

/-- A row of the `raids` table (the columns relevant to the check
constraint and the scores). -/
structure Raid where
  id : Nat
  attacker_id : Nat
  defender_id : Nat
  attack_score : Int
  defense_score : Int
  success : Bool
deriving DecidableEq, Repr

/-- `CONSTRAINT raids_no_self CHECK (attacker_id != defender_id)`. -/
def raidsNoSelf (r : Raid) : Bool :=
  r.attacker_id != r.defender_id

/-- Inserting into `raids` succeeds only when the check constraint
holds; the database rejects the row otherwise. -/
def insertRaid (t : List Raid) (r : Raid) : Option (List Raid) :=
  if raidsNoSelf r then some (t ++ [r]) else none

/-- Database states of the `raids` table reachable from the freshly
created (empty) table through successful inserts.  The application never
updates or needs to delete raid rows (deletes would only shrink the
table and preserve every row property). -/
inductive Reachable : List Raid → Prop
  | empty : Reachable []
  | insert (t : List Raid) (r : Raid) (t' : List Raid) :
      Reachable t → insertRaid t r = some t' → Reachable t'

end Raids

/-! ## Purchases table and its unique partial index
(`supabase/migrations/003_monetization.sql`) -/

namespace Purchases

/-- A row of the `purchases` table. -/
structure Purchase where
  id : Nat
  developer_id : Nat
  item_id : String
  provider : String
  provider_tx_id : Option String := none
  amount_cents : Int
  currency : String
  status : String
  gifted_to : Option Nat := none
deriving DecidableEq, Repr

/-- The unique partial index
`idx_purchases_unique_completed on purchases(developer_id, item_id)
where status = 'completed'` of migration 003.  A new row with status
`completed` is admissible only when no completed row with the same
`(developer_id, item_id)` already exists.  The index has no exception
for any item. -/
def uniqueCompletedOk (t : List Purchase) (p : Purchase) : Bool :=
  !(p.status == "completed")
  || t.all (fun q =>
      !(q.status == "completed" && q.developer_id == p.developer_id
        && q.item_id == p.item_id))

/-- Inserting into `purchases`: the database rejects rows violating the
unique partial index. -/
def insertPurchase (t : List Purchase) (p : Purchase) : Option (List Purchase) :=
  if uniqueCompletedOk t p then some (t ++ [p]) else none

/-- A completed billboard purchase held by developer 1. -/
def bbFirst : Purchase :=
  { id := 1, developer_id := 1, item_id := "billboard", provider := "stripe",
    amount_cents := 300, currency := "usd", status := "completed" }

/-- A second completed billboard purchase for the same developer. -/
def bbSecond : Purchase :=
  { id := 2, developer_id := 1, item_id := "billboard", provider := "stripe",
    amount_cents := 300, currency := "usd", status := "completed" }

end Purchases

/-! ## Checkout request handler (the shop checkout `POST` route) -/

namespace Checkout

/-- The authenticated Supabase user as the handler sees it:
`user.id` plus the GitHub metadata fields. -/
structure User where
  id : String
  user_name : Option String := none
  preferred_username : Option String := none
  email : Option String := none
deriving DecidableEq, Repr

/-- `toLowerCase`, written out over the character list. -/
def jsToLower (s : String) : String :=
  String.mk (s.toList.map Char.toLower)

/-- `(user.user_metadata?.user_name ?? user.user_metadata?.preferred_username
?? "").toLowerCase()`. -/
def loginOf (u : User) : String :=
  jsToLower ((u.user_name.orElse fun _ => u.preferred_username).getD "")

/-- A row of `developers` (the columns the checkout route reads). -/
structure Developer where
  id : Nat
  github_login : String
  claimed : Bool
  claimed_by : Option String := none
  contributions : Nat := 0
  public_repos : Nat := 0
  rank : Option Int := none
deriving DecidableEq, Repr

/-- A row of `items` (the columns the checkout route uses). -/
structure Item where
  id : String
  price_usd_cents : Int
  price_brl_cents : Int
  is_active : Bool := true
deriving DecidableEq, Repr

/-- The parsed request body `{ item_id, provider, currency? }`. -/
structure Body where
  item_id : String
  provider : String
  currency : Option String := none
deriving DecidableEq, Repr

/-- An HTTP response of the route: an error with a status code, or a
successful checkout carrying the new purchase id (the `url` /
`brCode` payload comes from the external provider and is opaque). -/
inductive Res
  | error (status : Nat) (msg : String)
  | ok (purchase_id : Nat)
deriving DecidableEq, Repr

/-- The database as the checkout route sees it; `nextId` is the id the
next inserted purchase row receives. -/
structure DB where
  developers : List Developer
  items : List Item
  purchases : List Purchases.Purchase
  nextId : Nat
deriving DecidableEq, Repr

/-- `const repoFactor = Math.min(1, devFull.public_repos / 100)`. -/
noncomputable def repoFactor (publicRepos : Nat) : ℝ :=
  min 1 ((publicRepos : ℝ) / 100)

/-- `const baseW = 14 + repoFactor * 16`. -/
noncomputable def baseW (publicRepos : Nat) : ℝ :=
  14 + repoFactor publicRepos * 16

/-- `const w = Math.round(baseW + 5)` (JavaScript `Math.round x` is
`⌊x + 1/2⌋`, which is Mathlib `round`). -/
noncomputable def wApprox (publicRepos : Nat) : ℤ :=
  round (baseW publicRepos + 5)

/-- `const d = Math.round(12 + 10)`. -/
noncomputable def dApprox : ℤ :=
  round ((12 : ℝ) + 10)

/-- `const h = Math.max(30, 12 + Math.sqrt(devFull.contributions) * 3)`. -/
noncomputable def hEstimate (contributions : Nat) : ℝ :=
  max 30 (12 + Real.sqrt (contributions : ℝ) * 3)

/-- `const minBillArea = 10 * 8`. -/
def minBillArea : Int := 10 * 8

/-- `const totalFaceArea = 2 * (w + d) * h`. -/
noncomputable def totalFaceArea (publicRepos contributions : Nat) : ℝ :=
  2 * ((wApprox publicRepos : ℝ) + (dApprox : ℝ)) * hEstimate contributions

/-- `const maxSlots = Math.max(1, Math.floor(totalFaceArea / (minBillArea * 6)))`. -/
noncomputable def maxSlots (publicRepos contributions : Nat) : ℤ :=
  max 1 ⌊totalFaceArea publicRepos contributions / ((minBillArea : ℝ) * 6)⌋

/-- The `count: "exact", head: true` query: how many purchases of
`itemId` by developer `devId` have status `completed`. -/
def completedCount (db : DB) (devId : Nat) (itemId : String) : Nat :=
  (db.purchases.filter fun p =>
    p.developer_id == devId && p.item_id == itemId && p.status == "completed").length

/-- The ownership validation of the checkout route: for `billboard`,
count existing completed billboard purchases against the computed slot
maximum (skipped when the developer row cannot be re-fetched); for any
other item, reject when a completed purchase of it already exists.
Returns `some response` when the request is rejected. -/
noncomputable def ownershipGate (db : DB) (dev : Developer) (itemId : String) :
    Option Res :=
  if itemId = "billboard" then
    let billboardCount := completedCount db dev.id "billboard"
    match db.developers.find? (fun d2 => d2.id == dev.id) with
    | some devFull =>
        let m := maxSlots devFull.public_repos devFull.contributions
        if (billboardCount : ℤ) ≥ m then
          some (Res.error 409
            ("Max billboard slots reached (" ++ toString m ++ ")"))
        else none
    | none => none
  else
    match db.purchases.find? (fun p =>
        p.developer_id == dev.id && p.item_id == itemId
          && p.status == "completed") with
    | some _ => some (Res.error 409 ("Already owned"))
    | none => none

/-- The tail of the checkout route after validation: delete a stale
pending purchase for the same `(developer, item)` pair if one exists,
insert a fresh pending purchase, and (for AbacatePay) save the PIX id
as `provider_tx_id`.  The external provider calls are modelled as
succeeding; `pixId` stands for the id the PIX provider returns. -/
def finalize (db : DB) (dev : Developer) (body : Body) (item : Item)
    (pixId : String) : Res × DB :=
  let db1 :=
    match db.purchases.find? (fun p =>
        p.developer_id == dev.id && p.item_id == body.item_id
          && p.status == "pending") with
    | some pending =>
        { db with purchases := db.purchases.filter fun q => !(q.id == pending.id) }
    | none => db
  if body.provider = "stripe" then
    let useBrl := body.currency == some ("brl")
    let amountCents := if useBrl then item.price_brl_cents else item.price_usd_cents
    let cur := if useBrl then "brl" else "usd"
    let row : Purchases.Purchase :=
      { id := db1.nextId, developer_id := dev.id, item_id := body.item_id,
        provider := "stripe", amount_cents := amountCents, currency := cur,
        status := "pending" }
    (Res.ok db1.nextId,
      { db1 with purchases := db1.purchases ++ [row], nextId := db1.nextId + 1 })
  else
    let row : Purchases.Purchase :=
      { id := db1.nextId, developer_id := dev.id, item_id := body.item_id,
        provider := "abacatepay", amount_cents := item.price_brl_cents,
        currency := "brl", status := "pending" }
    let updated := (db1.purchases ++ [row]).map fun q =>
      if q.id == row.id then { q with provider_tx_id := some pixId } else q
    (Res.ok db1.nextId,
      { db1 with purchases := updated, nextId := db1.nextId + 1 })

/-- The per-user rate limit `last && now - last < 10_000` (`last` is a
timestamp; the value `0` is falsy in JavaScript). -/
def rateLimited (now : Int) (last : Option Int) : Bool :=
  match last with
  | some l => !(l == 0) && decide (now - l < 10000)
  | none => false

/-- The whole checkout `POST` handler, translated branch by branch. -/
noncomputable def checkout (user? : Option User) (now : Int) (last : Option Int)
    (body? : Option Body) (pixId : String) (db : DB) : Res × DB :=
  match user? with
  | none => (Res.error 401 ("Not authenticated"), db)
  | some user =>
    if rateLimited now last then
      (Res.error 429 ("Too fast. Wait a few seconds."), db)
    else
      let githubLogin := loginOf user
      if githubLogin = "" then (Res.error 400 ("No GitHub login found"), db)
      else
        match db.developers.find? (fun d => d.github_login == githubLogin) with
        | none => (Res.error 403 ("You must claim your building first"), db)
        | some dev =>
          if !dev.claimed then
            (Res.error 403 ("You must claim your building first"), db)
          else if dev.claimed_by != some user.id then
            (Res.error 403 ("This building is not yours"), db)
          else
            match body? with
            | none => (Res.error 400 ("Invalid body"), db)
            | some body =>
              if body.item_id = "" ∨ body.provider = ""
                  ∨ body.provider ∉ (["stripe", "abacatepay"] : List String) then
                (Res.error 400 ("Invalid item_id or provider"), db)
              else
                match db.items.find? (fun i => i.id == body.item_id && i.is_active) with
                | none => (Res.error 404 ("Item not found or inactive"), db)
                | some item =>
                  match ownershipGate db dev body.item_id with
                  | some r => (r, db)
                  | none => finalize db dev body item pixId

end Checkout

/-! ## Loadout mutation handlers (`src/app/api/loadout/route.ts` and
`src/app/api/raid/loadout/route.ts`) -/

namespace Loadout

/-- `ZONE_ITEMS` of `src/lib/zones.ts`. -/
def ZONE_ITEMS (zone : String) : List String :=
  if zone = "crown" then ["flag", "helipad", "spire", "satellite_dish", "crown_item"]
  else if zone = "roof" then ["antenna_array", "rooftop_garden", "rooftop_fire", "pool_party"]
  else if zone = "aura" then ["neon_trim", "spotlight", "hologram_ring", "lightning_aura"]
  else []

/-- Modelled from the spec: the constants `RAID_VEHICLE_ITEMS` and
`RAID_TAG_ITEMS` of `lib/zones.ts` are not among the available sources;
the raid-system migration seeds the items with metadata type
`raid_vehicle`, which are the purchasable raid vehicles. -/
def RAID_VEHICLE_ITEMS : List String := ["raid_helicopter", "raid_drone", "raid_rocket"]

/-- Modelled from the spec: the items the raid-system migration seeds
with metadata type `raid_tag`, the purchasable raid graffiti tags. -/
def RAID_TAG_ITEMS : List String := ["tag_neon", "tag_fire", "tag_gold"]

/-- The `config` jsonb column of `developer_customizations`: a building
loadout (crown/roof/aura choices), a raid loadout (vehicle and tag), or
some other item configuration. -/
inductive ConfigVal
  | loadoutCfg (crown roof aura : Option String)
  | raidCfg (vehicle tag : String)
  | otherCfg
deriving DecidableEq, Repr

/-- A row of `developer_customizations` (unique on
`(developer_id, item_id)`). -/
structure CustomRow where
  developer_id : Nat
  item_id : String
  config : ConfigVal
deriving DecidableEq, Repr

/-- The database as the loadout routes see it. -/
structure LDB where
  developers : List Checkout.Developer
  purchases : List Purchases.Purchase
  customizations : List CustomRow
deriving DecidableEq, Repr

/-- The parsed body of the building-loadout `POST`:
`{ crown?, roof?, aura? }`, each a string or null/absent. -/
structure LoadoutBody where
  crown : Option String := none
  roof : Option String := none
  aura : Option String := none
deriving DecidableEq, Repr

/-- The parsed body of the raid-loadout `POST`: `{ vehicle?, tag? }`. -/
structure RaidBody where
  vehicle : Option String := none
  tag : Option String := none
deriving DecidableEq, Repr

/-- A response of the loadout routes. -/
inductive LRes
  | error (status : Nat) (msg : String)
  | okLoadout (cfg : ConfigVal)
  | okRaid (vehicle tag : String)
deriving DecidableEq, Repr

/-- `upsert` with `onConflict: "developer_id,item_id"`: replace the
matching row when one exists, append otherwise. -/
def upsertCustomization (rows : List CustomRow) (row : CustomRow) : List CustomRow :=
  if rows.any (fun r => r.developer_id == row.developer_id && r.item_id == row.item_id) then
    rows.map fun r =>
      if r.developer_id == row.developer_id && r.item_id == row.item_id then row else r
  else rows ++ [row]

/-- The item ids of the developer's completed purchases (the
`ownedSet`). -/
def ownedItems (db : LDB) (devId : Nat) : List String :=
  (db.purchases.filter fun p => p.developer_id == devId && p.status == "completed").map
    (fun p => p.item_id)

/-- One iteration of the zone-validation loop of the building-loadout
`POST`: `null`/absent clears the zone; an equipped item must belong to
the zone (400) and be owned (403).  The error messages elide the
apostrophe of the original `You don't own` text. -/
def validateZone (owned : List String) (zone : String) (itemId? : Option String) :
    Except LRes (Option String) :=
  match itemId? with
  | none => Except.ok none
  | some itemId =>
    if ¬ (ZONE_ITEMS zone).contains itemId then
      Except.error (LRes.error 400 (itemId ++ " is not valid for zone " ++ zone))
    else if ¬ owned.contains itemId then
      Except.error (LRes.error 403 ("You do not own " ++ itemId))
    else Except.ok (some itemId)

/-- The building-loadout `POST` handler. -/
def loadoutPost (user? : Option Checkout.User) (body : LoadoutBody) (db : LDB) :
    LRes × LDB :=
  match user? with
  | none => (LRes.error 401 ("Not authenticated"), db)
  | some user =>
    let githubLogin := Checkout.loginOf user
    match db.developers.find? (fun d => d.github_login == githubLogin) with
    | none => (LRes.error 403 ("Must own a claimed building"), db)
    | some dev =>
      if !dev.claimed || dev.claimed_by != some user.id then
        (LRes.error 403 ("Must own a claimed building"), db)
      else
        let owned := ownedItems db dev.id
        match validateZone owned "crown" body.crown with
        | Except.error e => (e, db)
        | Except.ok c =>
          match validateZone owned "roof" body.roof with
          | Except.error e => (e, db)
          | Except.ok r =>
            match validateZone owned "aura" body.aura with
            | Except.error e => (e, db)
            | Except.ok a =>
              let cfg := ConfigVal.loadoutCfg c r a
              (LRes.okLoadout cfg,
                { db with customizations :=
                    upsertCustomization db.customizations ⟨dev.id, "loadout", cfg⟩ })

/-- The stored raid loadout with its defaults:
`{ vehicle: current.vehicle ?? "airplane", tag: current.tag ?? "default" }`. -/
def currentRaidCfg (row? : Option CustomRow) : String × String :=
  match row? with
  | some row =>
    match row.config with
    | ConfigVal.raidCfg v t => (v, t)
    | _ => ("airplane", "default")
  | none => ("airplane", "default")

/-- The raid-loadout `POST` handler. -/
def raidLoadoutPost (user? : Option Checkout.User) (body : RaidBody) (db : LDB) :
    LRes × LDB :=
  match user? with
  | none => (LRes.error 401 ("Not authenticated"), db)
  | some user =>
    let githubLogin := Checkout.loginOf user
    match db.developers.find? (fun d => d.github_login == githubLogin) with
    | none => (LRes.error 403 ("Must own a claimed building"), db)
    | some dev =>
      if !dev.claimed || dev.claimed_by != some user.id then
        (LRes.error 403 ("Must own a claimed building"), db)
      else
        let owned := ownedItems db dev.id
        let current := currentRaidCfg (db.customizations.find? fun r =>
          r.developer_id == dev.id && r.item_id == "raid_loadout")
        let vehicleRes : Except LRes String :=
          match body.vehicle with
          | none => Except.ok current.1
          | some v =>
            if v = "airplane" then Except.ok v
            else if RAID_VEHICLE_ITEMS.contains v ∧ owned.contains v then Except.ok v
            else Except.error (LRes.error 403 ("Vehicle not owned or invalid"))
        match vehicleRes with
        | Except.error e => (e, db)
        | Except.ok vehicle =>
          let tagRes : Except LRes String :=
            match body.tag with
            | none => Except.ok current.2
            | some t =>
              if t = "default" then Except.ok t
              else if RAID_TAG_ITEMS.contains t ∧ owned.contains t then Except.ok t
              else Except.error (LRes.error 403 ("Tag not owned or invalid"))
          match tagRes with
          | Except.error e => (e, db)
          | Except.ok tag =>
            let newRow : CustomRow :=
              CustomRow.mk dev.id ("raid_loadout") (ConfigVal.raidCfg vehicle tag)
            (LRes.okRaid vehicle tag,
              { db with customizations := upsertCustomization db.customizations newRow })

end Loadout

/-! ## Kudos handler (the `POST` of `src/app/api/items/route.ts`) -/

namespace Kudos

/-- A row of `developers` as the kudos route reads it. -/
structure KDev where
  id : Nat
  github_login : String
  claimed : Bool
  kudos_count : Nat
deriving DecidableEq, Repr

/-- A row of `developer_kudos`. -/
structure KudosRow where
  giver_id : Nat
  receiver_id : Nat
  given_date : String
deriving DecidableEq, Repr

/-- A row of `activity_feed` as the kudos route writes it. -/
structure KFeed where
  event_type : String
  actor_id : Nat
  target_id : Nat
deriving DecidableEq, Repr

/-- The database state the kudos route touches. -/
structure KState where
  developers : List KDev
  kudos : List KudosRow
  feed : List KFeed
deriving DecidableEq, Repr

/-- A response of the kudos route (`{ ok: true }` or an error). -/
inductive KRes
  | error (status : Nat) (msg : String)
  | ok
deriving DecidableEq, Repr

/-- Modelled from the spec: the `developer_kudos` table definition is
not among the available sources; per the route's own comments its
primary key is `(giver_id, receiver_id, given_date)`, so inserting a
duplicate triple fails with error code 23505. -/
def kudosDuplicate (rows : List KudosRow) (r : KudosRow) : Bool :=
  decide (r ∈ rows)

/-- Modelled from the spec: the RPC `increment_kudos_count` is not
among the available sources; it increments the target developer's
`kudos_count` by one. -/
def incrementKudos (devs : List KDev) (devId : Nat) : List KDev :=
  devs.map fun d =>
    if d.id == devId then { d with kudos_count := d.kudos_count + 1 } else d

/-- The giver's kudos-row count for `today` (the 20/day limit query). -/
def todayCount (st : KState) (giverId : Nat) (today : String) : Nat :=
  (st.kudos.filter fun r => r.giver_id == giverId && r.given_date == today).length

/-- The kudos `POST` handler.  `rlOk` is the outcome of the in-memory
1-request-per-second limiter; `today` is the current UTC date string. -/
def giveKudos (user? : Option Checkout.User) (rlOk : Bool)
    (receiverLogin? : Option String) (today : String) (st : KState) :
    KRes × KState :=
  match user? with
  | none => (KRes.error 401 ("Not authenticated"), st)
  | some user =>
    match receiverLogin? with
    | none => (KRes.error 400 ("Missing receiver_login"), st)
    | some receiverLogin =>
      if !rlOk then (KRes.error 429 ("Too fast"), st)
      else
        let githubLogin := Checkout.loginOf user
        match st.developers.find? (fun d => d.github_login == githubLogin) with
        | none => (KRes.error 403 ("Must claim building first"), st)
        | some giver =>
          if !giver.claimed then (KRes.error 403 ("Must claim building first"), st)
          else
            match st.developers.find? (fun d => d.github_login == Checkout.jsToLower receiverLogin) with
            | none => (KRes.error 404 ("Receiver not found"), st)
            | some receiver =>
              if giver.id == receiver.id then
                (KRes.error 400 ("Cannot give kudos to yourself"), st)
              else if todayCount st giver.id today ≥ 20 then
                (KRes.error 429 ("Daily kudos limit reached (20/day)"), st)
              else
                let row : KudosRow := ⟨giver.id, receiver.id, today⟩
                if kudosDuplicate st.kudos row then
                  (KRes.ok, st)
                else
                  (KRes.ok,
                    { st with
                      kudos := st.kudos ++ [row],
                      developers := incrementKudos st.developers receiver.id,
                      feed := st.feed ++ [⟨"kudos_given", giver.id, receiver.id⟩] })

end Kudos

/-! ## Activity feed handler (`src/app/api/feed/route.ts`) -/

namespace Feed

/-- A row of `activity_feed` as the feed route selects it. -/
structure FeedRow where
  id : Nat
  event_type : String
  actor_id : Option Nat := none
  target_id : Option Nat := none
  created_at : Int
deriving DecidableEq, Repr

/-- The `order("created_at", { ascending: false })` order. -/
def createdDesc (a b : FeedRow) : Prop := b.created_at ≤ a.created_at

instance : DecidableRel createdDesc := fun a b =>
  inferInstanceAs (Decidable (b.created_at ≤ a.created_at))

instance : IsTotal FeedRow createdDesc :=
  ⟨fun a b => le_total b.created_at a.created_at⟩

instance : IsTrans FeedRow createdDesc :=
  ⟨fun _ _ _ h1 h2 => le_trans h2 h1⟩

/-- `limit = Math.min(50, Math.max(1, parseInt(limitParam ?? "20")))`. -/
def effLimit (limitParam : Option Int) : Int :=
  min 50 (max 1 (limitParam.getD 20))

/-- The feed query: the optional `before` cursor restricts to strictly
older events, the result is ordered by `created_at` descending and
truncated at `limit` rows. -/
def feedQuery (table : List FeedRow) (before : Option Nat) (limit : Nat) :
    List FeedRow :=
  let base : List FeedRow :=
    match before with
    | some b =>
      match table.find? (fun e => e.id == b) with
      | some cursor => table.filter fun e => decide (e.created_at < cursor.created_at)
      | none => table
    | none => table
  (base.insertionSort createdDesc).take limit

/-- The response body of the feed `GET`.  The per-event enrichment with
developer login/avatar maps each event one-to-one and changes neither
the count nor the order, so the events are kept unenriched here. -/
structure FeedResponse where
  events : List FeedRow
  has_more : Bool
deriving DecidableEq, Repr

/-- The feed `GET` handler. -/
def feedGet (limitParam : Option Int) (before : Option Nat)
    (table : List FeedRow) : FeedResponse :=
  let limit := (effLimit limitParam).toNat
  let events := feedQuery table before limit
  if events.isEmpty then { events := [], has_more := false }
  else { events := events, has_more := events.length == limit }

end Feed

/-! ## Achievement unlock script (the analytics/achievements check) -/

namespace Achievements

/-- A row of `achievements`. -/
structure Achievement where
  id : String
  category : String
  name : String
  threshold : Nat
  tier : String
  reward_type : String
  reward_item_id : Option String := none
deriving DecidableEq, Repr

/-- A row of `developers` as the script selects it (nullable stats). -/
structure DevRow where
  id : Nat
  github_login : String
  contributions : Option Nat := none
  public_repos : Option Nat := none
  total_stars : Option Nat := none
  kudos_count : Option Nat := none
  referral_count : Option Nat := none
deriving DecidableEq, Repr

/-- The `stats` record the script computes per developer. -/
structure Stats where
  contributions : Nat
  public_repos : Nat
  total_stars : Nat
  referral_count : Nat
  kudos_count : Nat
  gifts_sent : Nat
  gifts_received : Nat
deriving DecidableEq, Repr

/-- `giftsSentMap`: completed purchases with a non-null `gifted_to`,
counted by `developer_id`. -/
def giftsSentCount (purchases : List Purchases.Purchase) (devId : Nat) : Nat :=
  (purchases.filter fun p =>
    p.status == "completed" && !(p.gifted_to == none) && p.developer_id == devId).length

/-- `giftsReceivedMap`: completed purchases counted by `gifted_to`. -/
def giftsReceivedCount (purchases : List Purchases.Purchase) (devId : Nat) : Nat :=
  (purchases.filter fun p =>
    p.status == "completed" && p.gifted_to == some devId).length

/-- The stats of one developer (`?? 0` on nullable columns). -/
def statsOf (purchases : List Purchases.Purchase) (dev : DevRow) : Stats :=
  { contributions := dev.contributions.getD 0,
    public_repos := dev.public_repos.getD 0,
    total_stars := dev.total_stars.getD 0,
    referral_count := dev.referral_count.getD 0,
    kudos_count := dev.kudos_count.getD 0,
    gifts_sent := giftsSentCount purchases dev.id,
    gifts_received := giftsReceivedCount purchases dev.id }

/-- The `switch (a.category)` qualification test. -/
def qualifies (s : Stats) (a : Achievement) : Bool :=
  if a.category = "commits" then decide (s.contributions ≥ a.threshold)
  else if a.category = "repos" then decide (s.public_repos ≥ a.threshold)
  else if a.category = "stars" then decide (s.total_stars ≥ a.threshold)
  else if a.category = "social" then decide (s.referral_count ≥ a.threshold)
  else if a.category = "kudos" then decide (s.kudos_count ≥ a.threshold)
  else if a.category = "gifts_sent" then decide (s.gifts_sent ≥ a.threshold)
  else if a.category = "gifts_received" then decide (s.gifts_received ≥ a.threshold)
  else false

/-- The `newUnlocks` the per-developer loop collects: achievements not
already in the existing-unlocks set whose threshold the developer
meets. -/
def devNewUnlocks (achs : List Achievement) (existing : List (Nat × String))
    (purchases : List Purchases.Purchase) (dev : DevRow) : List Achievement :=
  achs.filter fun a =>
    !(existing.contains (dev.id, a.id)) && qualifies (statsOf purchases dev) a

/-- A row the script batches for `developer_achievements`. -/
structure UnlockRow where
  developer_id : Nat
  achievement_id : String
deriving DecidableEq, Repr

/-- A reward purchase row the script batches. -/
structure RewardRow where
  developer_id : Nat
  item_id : String
  provider : String
  provider_tx_id : String
  amount_cents : Int
  currency : String
  status : String
deriving DecidableEq, Repr

/-- A feed event the script batches; the metadata is reduced to the
achievement ids it reports. -/
structure FeedEventRow where
  event_type : String
  actor_id : Nat
  achievement_ids : List String
deriving DecidableEq, Repr

/-- The reward purchases for one developer's new unlocks
(`reward_type === "unlock_item" && reward_item_id`, with JavaScript
truthiness on the item id). -/
def rewardRowsFor (dev : DevRow) (newUnlocks : List Achievement) : List RewardRow :=
  newUnlocks.filterMap fun a =>
    match a.reward_item_id with
    | some r =>
      if a.reward_type == "unlock_item" && !(r == "") then
        some ⟨dev.id, r, "achievement",
          "achievement_" ++ toString dev.id ++ "_" ++ a.id, 0, "usd", "completed"⟩
      else none
    | none => none

/-- The three row batches the script accumulates over all developers. -/
def runCheck (achs : List Achievement) (devs : List DevRow)
    (existing : List (Nat × String)) (purchases : List Purchases.Purchase) :
    List UnlockRow × List RewardRow × List FeedEventRow :=
  (devs.flatMap fun dev =>
      (devNewUnlocks achs existing purchases dev).map fun a =>
        UnlockRow.mk dev.id a.id,
   devs.flatMap fun dev =>
      rewardRowsFor dev (devNewUnlocks achs existing purchases dev),
   (devs.filter fun dev => !(devNewUnlocks achs existing purchases dev).isEmpty).map
      fun dev =>
        FeedEventRow.mk ("achievement_unlocked") dev.id
          ((devNewUnlocks achs existing purchases dev).map fun a => a.id))

/-- The script's database writes: when `totalUnlocks === 0` it prints
`Nothing to do!` and returns before touching the database. -/
def scriptWrites (achs : List Achievement) (devs : List DevRow)
    (existing : List (Nat × String)) (purchases : List Purchases.Purchase) :
    Option (List UnlockRow × List RewardRow × List FeedEventRow) :=
  let out := runCheck achs devs existing purchases
  if out.1.length == 0 then none else some out

end Achievements

/-! ## Concrete witness inputs -/

namespace Raids

/-- A legitimate raid between two distinct developers. -/
def someRaid : Raid := ⟨1, 1, 2, 10, 5, true⟩

end Raids

namespace Checkout

/-- A Supabase user whose GitHub login is `alice`. -/
def userW : User := { id := "u1", user_name := some ("alice") }

/-- Developer 1, claimed by `userW`, with zero public repos and zero
contributions. -/
def devW : Developer :=
  { id := 1, github_login := "alice", claimed := true, claimed_by := some ("u1") }

def billboardItem : Item := { id := "billboard", price_usd_cents := 200, price_brl_cents := 990 }

def helipadItem : Item := { id := "helipad", price_usd_cents := 100, price_brl_cents := 490 }

/-- The `k`-th completed billboard purchase of developer 1. -/
def bbRow (k : Nat) : Purchases.Purchase :=
  { id := k, developer_id := 1, item_id := "billboard", provider := "stripe",
    amount_cents := 200, currency := "usd", status := "completed" }

/-- Developer 1 already holds five completed billboard purchases. -/
def dbC2 : DB :=
  { developers := [devW], items := [billboardItem],
    purchases := [bbRow 1, bbRow 2, bbRow 3, bbRow 4, bbRow 5], nextId := 10 }

def bodyBillboard : Body := { item_id := "billboard", provider := "stripe" }

/-- A completed helipad purchase of developer 1. -/
def ownedRow : Purchases.Purchase :=
  { id := 1, developer_id := 1, item_id := "helipad", provider := "stripe",
    amount_cents := 100, currency := "usd", status := "completed" }

def dbOwned : DB :=
  { developers := [devW], items := [helipadItem], purchases := [ownedRow], nextId := 5 }

def bodyHelipad : Body := { item_id := "helipad", provider := "stripe" }

/-- A stale pending helipad purchase of developer 1. -/
def pendRow : Purchases.Purchase :=
  { id := 3, developer_id := 1, item_id := "helipad", provider := "stripe",
    amount_cents := 100, currency := "usd", status := "pending" }

def dbPending : DB :=
  { developers := [devW], items := [helipadItem], purchases := [pendRow], nextId := 7 }

end Checkout

namespace Kudos

def aliceK : KDev := { id := 1, github_login := "alice", claimed := true, kudos_count := 0 }

def bobK : KDev := { id := 2, github_login := "bob", claimed := true, kudos_count := 3 }

def userK : Checkout.User := { id := "u1", user_name := some ("alice") }

/-- Nineteen kudos already given today by developer 1 to developers
100 through 118. -/
def priorRows : List KudosRow := (List.range 19).map fun k => ⟨1, 100 + k, "d"⟩

/-- A state in which the giver sits one kudos below the daily limit. -/
def stK : KState := { developers := [aliceK, bobK], kudos := priorRows, feed := [] }

/-- A state with no kudos given yet. -/
def stK0 : KState := { developers := [aliceK, bobK], kudos := [], feed := [] }

/-- The state after a successful kudos: the row inserted, the
receiver's count incremented, one feed event appended (the write-set of
the success path of the handler). -/
def nextState (st : KState) (giverId receiverId : Nat) (today : String) : KState :=
  { st with
    kudos := st.kudos ++ [⟨giverId, receiverId, today⟩],
    developers := incrementKudos st.developers receiverId,
    feed := st.feed ++ [⟨"kudos_given", giverId, receiverId⟩] }

end Kudos

namespace Achievements

def achW : Achievement :=
  { id := "first_push", category := "commits", name := "First Push",
    threshold := 1, tier := "bronze", reward_type := "unlock_item",
    reward_item_id := some ("flag") }

def devRowW : DevRow := { id := 1, github_login := "alice", contributions := some 5 }

end Achievements

/-! ## Theorems -/

namespace SkyAds

theorem mem_validateAds {ads : List SkyAd} {a : SkyAd}
    (h : a ∈ validateAds ads) : a ∈ ads.filter validAd :=
  ((ads.filter validAd).perm_insertionSort priorityDesc).mem_iff.mp h

theorem validAd_of_mem_validateAds {ads : List SkyAd} {a : SkyAd}
    (h : a ∈ validateAds ads) : validAd a = true :=
  (List.mem_filter.mp (mem_validateAds h)).2

theorem sorted_validateAds (ads : List SkyAd) :
    (validateAds ads).Sorted priorityDesc :=
  List.sorted_insertionSort priorityDesc (ads.filter validAd)

/-- Claim C8 (counterexample): an ad whose `link` is the empty string is
returned by `getActiveAds` even though its link does not start with
`https://` or `mailto:` — the JavaScript truthiness guard
`ad.link && !pattern.test(ad.link)` skips the pattern check for the
empty string, so the claim "every returned ad has ... a link (when
present) starting with https:// or mailto:" fails at this input. -/
theorem empty_link_ad_returned :
    emptyLinkAd ∈ (getActiveAds [emptyLinkAd]).1 ∧
    emptyLinkAd.link = some ("") ∧
    allowedLinkOk ("") = false := by
  decide

/-- Claim C8 (amended): `getActiveAds` returns at most 3 plane ads and
at most 2 blimp ads; every returned ad has text of length at most 80
and 6-digit hex `color` and `bgColor`, and a NON-EMPTY link (when
present) starts with `https://` or `mailto:`; each returned list is in
non-increasing priority order. -/
theorem active_ads_bounded_valid_sorted (ads : List SkyAd) :
    (getActiveAds ads).1.length ≤ MAX_PLANES ∧
    (getActiveAds ads).2.length ≤ MAX_BLIMPS ∧
    (∀ a, (a ∈ (getActiveAds ads).1 ∨ a ∈ (getActiveAds ads).2) →
      a.text.length ≤ MAX_TEXT_LENGTH ∧
      hexColorOk a.color = true ∧ hexColorOk a.bgColor = true ∧
      (∀ l, a.link = some l → l ≠ "" → allowedLinkOk l = true)) ∧
    (getActiveAds ads).1.Sorted priorityDesc ∧
    (getActiveAds ads).2.Sorted priorityDesc := by
  have hvalid : ∀ a, (a ∈ (getActiveAds ads).1 ∨ a ∈ (getActiveAds ads).2) →
      validAd a = true := by
    intro a ha
    rcases ha with h | h
    · exact validAd_of_mem_validateAds
        (List.mem_filter.mp (List.mem_of_mem_take h)).1
    · exact validAd_of_mem_validateAds
        (List.mem_filter.mp (List.mem_of_mem_take h)).1
  refine ⟨?_, ?_, ?_, ?_, ?_⟩
  · exact le_trans (List.length_take_le _ _) (le_refl _)
  · exact le_trans (List.length_take_le _ _) (le_refl _)
  · intro a ha
    have hv := hvalid a ha
    unfold validAd at hv
    simp only [Bool.and_eq_true, Bool.not_eq_true', decide_eq_false_iff_not,
      not_lt] at hv
    obtain ⟨⟨⟨htext, hlink⟩, hcolor⟩, hbg⟩ := hv
    refine ⟨?_, hcolor, hbg, ?_⟩
    · simpa [MAX_TEXT_LENGTH] using htext
    · intro l hl hne
      rw [hl] at hlink
      simp only [Bool.or_eq_true, beq_iff_eq] at hlink
      rcases hlink with h | h
      · exact absurd h hne
      · exact h
  · exact List.Pairwise.sublist (List.take_sublist _ _)
      ((sorted_validateAds ads).filter _)
  · exact List.Pairwise.sublist (List.take_sublist _ _)
      ((sorted_validateAds ads).filter _)

/-- Claim C8 (witness): the amended theorem applied to a concrete valid
plane ad. -/
theorem active_ads_bounded_valid_sorted_witness :
    (goodAd ∈ (getActiveAds [goodAd]).1 ∨ goodAd ∈ (getActiveAds [goodAd]).2) ∧
    goodAd.link = some ("https://example.com") ∧
    allowedLinkOk ("https://example.com") = true :=
  ⟨by decide, rfl,
    ((active_ads_bounded_valid_sorted [goodAd]).2.2.1 goodAd (by decide)).2.2.2
      ("https://example.com") rfl (by decide)⟩

end SkyAds

namespace Raids

/-- Claim C5: in every database state of the `raids` table reachable
through inserts (each guarded by the `raids_no_self` check constraint),
every row has `attacker_id ≠ defender_id`. -/
theorem no_self_raid_invariant {t : List Raid} (h : Reachable t) :
    ∀ r ∈ t, r.attacker_id ≠ r.defender_id := by
  induction h with
  | empty => intro r hr; simp at hr
  | insert t r t' _ hins ih =>
    intro q hq
    unfold insertRaid at hins
    by_cases hc : raidsNoSelf r
    · rw [if_pos hc] at hins
      injection hins with h'
      subst h'
      rcases List.mem_append.mp hq with h1 | h2
      · exact ih q h1
      · have h2' : q = r := by simpa using h2
        subst h2'
        simpa [raidsNoSelf] using hc
    · rw [if_neg hc] at hins
      cases hins

/-- Claim C5 (witness): the invariant evaluated on the concrete
reachable one-row table. -/
theorem no_self_raid_invariant_witness :
    someRaid.attacker_id ≠ someRaid.defender_id :=
  no_self_raid_invariant
    (Reachable.insert [] someRaid [someRaid] Reachable.empty rfl)
    someRaid (by simp)

end Raids

namespace Purchases

/-- Claim C1: the unique partial index of migration 003 covers every
item, `billboard` included, so the database rejects a second completed
billboard purchase for the same developer — contradicting the multi-buy
billboard behaviour the checkout route and migration 006 describe. -/
theorem second_completed_billboard_rejected :
    insertPurchase [bbFirst] bbSecond = none := by
  decide

end Purchases

namespace Loadout

/-- Claim C7: an unauthenticated `POST` to the building-loadout or the
raid-loadout route answers 401 and leaves the database (in particular
the stored loadout configurations) unchanged. -/
theorem unauthenticated_loadout_rejected (body : LoadoutBody) (rbody : RaidBody)
    (db : LDB) :
    loadoutPost none body db = (LRes.error 401 ("Not authenticated"), db) ∧
    raidLoadoutPost none rbody db = (LRes.error 401 ("Not authenticated"), db) :=
  ⟨rfl, rfl⟩

end Loadout

namespace Feed

theorem one_le_effLimit (limitParam : Option Int) : 1 ≤ effLimit limitParam :=
  le_min (by norm_num) (le_max_left 1 _)

/-- Claim C10: the feed `GET` returns at most
`min(50, max(1, limit))` events, ordered by `created_at` descending,
and `has_more` is true exactly when the returned count equals that
effective limit. -/
theorem feed_limit_order_has_more (limitParam : Option Int) (before : Option Nat)
    (table : List FeedRow) :
    (feedGet limitParam before table).events.length ≤ (effLimit limitParam).toNat ∧
    (feedGet limitParam before table).events.Sorted createdDesc ∧
    ((feedGet limitParam before table).has_more = true ↔
      (feedGet limitParam before table).events.length = (effLimit limitParam).toNat) := by
  have hL : (effLimit limitParam).toNat ≠ 0 := by
    have h1 := one_le_effLimit limitParam
    omega
  unfold feedGet
  by_cases he : (feedQuery table before (effLimit limitParam).toNat).isEmpty
  · rw [if_pos he]
    refine ⟨by simp, by simp [List.Sorted], ?_⟩
    simp only [List.length_nil]
    constructor
    · intro h; cases h
    · intro h; exact absurd h.symm hL
  · rw [if_neg he]
    refine ⟨?_, ?_, ?_⟩
    · unfold feedQuery
      exact List.length_take_le _ _
    · unfold feedQuery
      exact List.Pairwise.sublist (List.take_sublist _ _)
        (List.sorted_insertionSort createdDesc _)
    · simp

end Feed

namespace Achievements

theorem rewardRowsFor_developer_id (d : DevRow) (l : List Achievement) :
    ∀ r ∈ rewardRowsFor d l, r.developer_id = d.id := by
  intro r hr
  unfold rewardRowsFor at hr
  rw [List.mem_filterMap] at hr
  obtain ⟨a, _, he⟩ := hr
  cases hri : a.reward_item_id with
  | none => rw [hri] at he; cases he
  | some rv =>
    rw [hri] at he
    dsimp only at he
    by_cases hc : (a.reward_type == "unlock_item" && !(rv == "")) = true
    · rw [if_pos hc] at he
      injection he with he'
      rw [← he']
    · rw [if_neg hc] at he
      cases he

/-- Claim C4: for a developer every one of whose qualifying
achievements is already in the existing-unlocks set, a re-run of the
achievement check computes no new unlocks for that developer (already
unlocked achievements are skipped), and none of the batched
`developer_achievements` rows, reward purchases, or feed events
concerns that developer.  Developer ids are unique (the table's primary
key). -/
theorem rerun_is_noop (achs : List Achievement) (devs : List DevRow)
    (existing : List (Nat × String)) (purchases : List Purchases.Purchase)
    (dev : DevRow) (hdev : dev ∈ devs)
    (hid : ∀ d2 ∈ devs, d2.id = dev.id → d2 = dev)
    (h : ∀ a ∈ achs,
      qualifies (statsOf purchases dev) a = true → (dev.id, a.id) ∈ existing) :
    devNewUnlocks achs existing purchases dev = [] ∧
    (∀ r ∈ (runCheck achs devs existing purchases).1, r.developer_id ≠ dev.id) ∧
    (∀ r ∈ (runCheck achs devs existing purchases).2.1, r.developer_id ≠ dev.id) ∧
    (∀ e ∈ (runCheck achs devs existing purchases).2.2, e.actor_id ≠ dev.id) := by
  have hnil : devNewUnlocks achs existing purchases dev = [] := by
    apply List.filter_eq_nil_iff.mpr
    intro a ha
    by_cases hq : qualifies (statsOf purchases dev) a = true
    · have hmem := h a ha hq
      simp [hq]
      exact hmem
    · simp [hq]
  refine ⟨hnil, ?_, ?_, ?_⟩
  · intro r hr hrid
    unfold runCheck at hr
    rw [List.mem_flatMap] at hr
    obtain ⟨d2, hd2, hr⟩ := hr
    rw [List.mem_map] at hr
    obtain ⟨a, ha, hra⟩ := hr
    have hd2id : d2.id = dev.id := by rw [← hra] at hrid; exact hrid
    have hd2dev : d2 = dev := hid d2 hd2 hd2id
    rw [hd2dev, hnil] at ha
    cases ha
  · intro r hr hrid
    unfold runCheck at hr
    rw [List.mem_flatMap] at hr
    obtain ⟨d2, hd2, hr⟩ := hr
    have hd2id : d2.id = dev.id := by
      rw [← rewardRowsFor_developer_id d2 _ r hr]; exact hrid
    have hd2dev : d2 = dev := hid d2 hd2 hd2id
    rw [hd2dev, hnil] at hr
    unfold rewardRowsFor at hr
    cases hr
  · intro e he heid
    unfold runCheck at he
    rw [List.mem_map] at he
    obtain ⟨d2, hd2, hed⟩ := he
    have hd2mem : d2 ∈ devs := (List.mem_filter.mp hd2).1
    have hd2new : (!(devNewUnlocks achs existing purchases d2).isEmpty) = true :=
      (List.mem_filter.mp hd2).2
    have hd2id : d2.id = dev.id := by rw [← hed] at heid; exact heid
    have hd2dev : d2 = dev := hid d2 hd2mem hd2id
    rw [hd2dev, hnil] at hd2new
    cases hd2new

/-- Claim C4 (witness): the no-op theorem applied to a developer whose
single qualifying achievement is already unlocked. -/
theorem rerun_is_noop_witness :
    devNewUnlocks [achW] [((1 : Nat), "first_push")] [] devRowW = [] ∧
    (∀ r ∈ (runCheck [achW] [devRowW] [((1 : Nat), "first_push")] []).1,
      r.developer_id ≠ devRowW.id) ∧
    (∀ r ∈ (runCheck [achW] [devRowW] [((1 : Nat), "first_push")] []).2.1,
      r.developer_id ≠ devRowW.id) ∧
    (∀ e ∈ (runCheck [achW] [devRowW] [((1 : Nat), "first_push")] []).2.2,
      e.actor_id ≠ devRowW.id) :=
  rerun_is_noop [achW] [devRowW] [((1 : Nat), "first_push")] [] devRowW
    (by decide) (by decide) (by decide)

end Achievements

namespace Checkout

theorem dApprox_eq : dApprox = 22 := by
  unfold dApprox
  norm_num

theorem wApprox_zero : wApprox 0 = 19 := by
  unfold wApprox baseW repoFactor
  rw [show ((0 : Nat) : ℝ) / 100 = 0 by norm_num,
    min_eq_right (by norm_num : (0 : ℝ) ≤ 1)]
  norm_num

theorem hEstimate_zero : hEstimate 0 = 30 := by
  unfold hEstimate
  rw [show ((0 : Nat) : ℝ) = 0 by norm_num, Real.sqrt_zero]
  norm_num

theorem maxSlots_zero : maxSlots 0 0 = 5 := by
  unfold maxSlots totalFaceArea minBillArea
  rw [wApprox_zero, dApprox_eq, hEstimate_zero]
  rw [show (2 * (((19 : ℤ) : ℝ) + ((22 : ℤ) : ℝ)) * 30 / (((10 * 8 : ℤ) : ℝ) * 6))
      = 41 / 8 by push_cast; ring]
  rw [show ⌊(41 / 8 : ℝ)⌋ = 5 by
    rw [Int.floor_eq_iff]
    norm_num]
  norm_num

/-- The checkout handler after all authentication, rate-limit, body and
item validation succeeded: what remains is the ownership gate and the
finalisation. -/
theorem checkout_validated
    (u : User) (now : Int) (last : Option Int) (body : Body) (pixId : String)
    (db : DB) (dev : Developer) (item : Item)
    (hrl : rateLimited now last = false)
    (hlogin : loginOf u ≠ "")
    (hdev : db.developers.find? (fun d => d.github_login == loginOf u) = some dev)
    (hclaimed : dev.claimed = true)
    (howner : dev.claimed_by = some u.id)
    (hbid : body.item_id ≠ "")
    (hprov : body.provider = "stripe" ∨ body.provider = "abacatepay")
    (hitem : db.items.find? (fun i => i.id == body.item_id && i.is_active) = some item) :
    checkout (some u) now last (some body) pixId db =
      (match ownershipGate db dev body.item_id with
       | some r => (r, db)
       | none => finalize db dev body item pixId) := by
  have hprovne : body.provider ≠ "" := by
    rcases hprov with h | h <;> rw [h] <;> decide
  have hprovmem : body.provider ∈ (["stripe", "abacatepay"] : List String) := by
    rcases hprov with h | h <;> rw [h] <;> decide
  unfold checkout
  rw [hrl]
  simp only [Bool.false_eq_true, if_false]
  rw [if_neg hlogin, hdev]
  simp only [hclaimed, Bool.not_true, Bool.false_eq_true, if_false, howner,
    bne_self_eq_false]
  rw [if_neg (by
    push_neg
    exact ⟨hbid, hprovne, hprovmem⟩)]
  rw [hitem]

/-- Claim C2: a billboard checkout by an authenticated developer who
owns their claimed building is rejected with HTTP 409 — and the
database is unchanged — when the count of completed billboard purchases
has reached `maxSlots = max(1, ⌊2(w+d)h/480⌋)` with
`w = round(14 + min(1, repos/100)·16 + 5)`, `d = round(22)`,
`h = max(30, 12 + √contributions·3)`. -/
theorem billboard_slots_exhausted_conflict
    (u : User) (now : Int) (last : Option Int) (body : Body) (pixId : String)
    (db : DB) (dev devFull : Developer) (item : Item)
    (hrl : rateLimited now last = false)
    (hlogin : loginOf u ≠ "")
    (hdev : db.developers.find? (fun d => d.github_login == loginOf u) = some dev)
    (hclaimed : dev.claimed = true)
    (howner : dev.claimed_by = some u.id)
    (hbb : body.item_id = "billboard")
    (hprov : body.provider = "stripe" ∨ body.provider = "abacatepay")
    (hitem : db.items.find? (fun i => i.id == body.item_id && i.is_active) = some item)
    (hfull : db.developers.find? (fun d2 => d2.id == dev.id) = some devFull)
    (hcount : ((completedCount db dev.id "billboard" : Nat) : Int) ≥
      maxSlots devFull.public_repos devFull.contributions) :
    checkout (some u) now last (some body) pixId db =
      (Res.error 409 ("Max billboard slots reached ("
        ++ toString (maxSlots devFull.public_repos devFull.contributions) ++ ")"), db) := by
  have hg : ownershipGate db dev body.item_id =
      some (Res.error 409 ("Max billboard slots reached ("
        ++ toString (maxSlots devFull.public_repos devFull.contributions) ++ ")")) := by
    unfold ownershipGate
    rw [hbb]
    simp only [if_pos rfl, hfull]
    rw [if_pos hcount]
    simp only [if_true]
  rw [checkout_validated u now last body pixId db dev item hrl hlogin hdev hclaimed
    howner (by rw [hbb]; decide) hprov hitem]
  simp only [hg]

/-- Claim C3: a checkout of a non-billboard item the developer already
owns (a completed purchase exists) is rejected with HTTP 409
`Already owned`, and the database is unchanged. -/
theorem duplicate_item_conflict
    (u : User) (now : Int) (last : Option Int) (body : Body) (pixId : String)
    (db : DB) (dev : Developer) (item : Item) (owned : Purchases.Purchase)
    (hrl : rateLimited now last = false)
    (hlogin : loginOf u ≠ "")
    (hdev : db.developers.find? (fun d => d.github_login == loginOf u) = some dev)
    (hclaimed : dev.claimed = true)
    (howner : dev.claimed_by = some u.id)
    (hbid : body.item_id ≠ "")
    (hnbb : body.item_id ≠ "billboard")
    (hprov : body.provider = "stripe" ∨ body.provider = "abacatepay")
    (hitem : db.items.find? (fun i => i.id == body.item_id && i.is_active) = some item)
    (howned : db.purchases.find? (fun p =>
        p.developer_id == dev.id && p.item_id == body.item_id
          && p.status == "completed") = some owned) :
    checkout (some u) now last (some body) pixId db =
      (Res.error 409 ("Already owned"), db) := by
  have hg : ownershipGate db dev body.item_id = some (Res.error 409 ("Already owned")) := by
    unfold ownershipGate
    rw [if_neg hnbb]
    simp only [howned]
  rw [checkout_validated u now last body pixId db dev item hrl hlogin hdev hclaimed
    howner hbid hprov hitem]
  simp only [hg]

/-- Claim C6: a checkout that passes every validation (the ownership
gate returns nothing) while a stale pending purchase for the same
`(developer, item)` pair exists deletes that pending row and creates a
fresh pending purchase with the next id. -/
theorem stale_pending_deleted_and_recreated
    (u : User) (now : Int) (last : Option Int) (body : Body) (pixId : String)
    (db : DB) (dev : Developer) (item : Item) (pend : Purchases.Purchase)
    (hrl : rateLimited now last = false)
    (hlogin : loginOf u ≠ "")
    (hdev : db.developers.find? (fun d => d.github_login == loginOf u) = some dev)
    (hclaimed : dev.claimed = true)
    (howner : dev.claimed_by = some u.id)
    (hbid : body.item_id ≠ "")
    (hprov : body.provider = "stripe" ∨ body.provider = "abacatepay")
    (hitem : db.items.find? (fun i => i.id == body.item_id && i.is_active) = some item)
    (hgate : ownershipGate db dev body.item_id = none)
    (hpending : db.purchases.find? (fun p =>
        p.developer_id == dev.id && p.item_id == body.item_id
          && p.status == "pending") = some pend)
    (hfresh : ∀ q ∈ db.purchases, q.id ≠ db.nextId) :
    ∃ row : Purchases.Purchase,
      row.developer_id = dev.id ∧ row.item_id = body.item_id ∧
      row.status = "pending" ∧ row.id = db.nextId ∧
      checkout (some u) now last (some body) pixId db =
        (Res.ok db.nextId,
         { db with
            purchases := (db.purchases.filter fun q => !(q.id == pend.id)) ++ [row],
            nextId := db.nextId + 1 }) := by
  rw [checkout_validated u now last body pixId db dev item hrl hlogin hdev hclaimed
    howner hbid hprov hitem]
  simp only [hgate]
  simp only [finalize, hpending]
  rcases hprov with h | h
  · rw [if_pos h]
    exact ⟨_, rfl, rfl, rfl, rfl, rfl⟩
  · rw [if_neg (show ¬ body.provider = "stripe" by rw [h]; decide)]
    refine ⟨{ id := db.nextId, developer_id := dev.id, item_id := body.item_id,
              provider := "abacatepay", provider_tx_id := some pixId,
              amount_cents := item.price_brl_cents, currency := "brl",
              status := "pending" }, rfl, rfl, rfl, rfl, ?_⟩
    have hmap : ((db.purchases.filter fun q => !(q.id == pend.id)).map
        (fun q => if q.id == db.nextId
          then { q with provider_tx_id := some pixId } else q))
        = db.purchases.filter fun q => !(q.id == pend.id) := by
      rw [List.map_congr_left (g := id) ?_, List.map_id]
      intro q hq
      have hqmem : q ∈ db.purchases := (List.mem_filter.mp hq).1
      rw [if_neg ?_]
      · rfl
      · simp only [beq_iff_eq]
        exact hfresh q hqmem
    simp only [List.map_append, hmap, List.map_cons, List.map_nil,
      beq_self_eq_true, if_pos]

/-- Claim C2 (witness): developer 1 with zero repos and contributions
has `maxSlots 0 0 = 5`; holding five completed billboard purchases, a
sixth billboard checkout is rejected with 409 and the database is
unchanged. -/
theorem billboard_slots_exhausted_conflict_witness :
    ((completedCount dbC2 devW.id "billboard" : Nat) : Int) ≥
      maxSlots devW.public_repos devW.contributions ∧
    checkout (some userW) 0 none (some bodyBillboard) ("pix") dbC2 =
      (Res.error 409 ("Max billboard slots reached ("
        ++ toString (maxSlots devW.public_repos devW.contributions) ++ ")"), dbC2) := by
  have e2 : maxSlots devW.public_repos devW.contributions = 5 := maxSlots_zero
  have hcount : ((completedCount dbC2 devW.id "billboard" : Nat) : Int) ≥
      maxSlots devW.public_repos devW.contributions := by
    rw [e2, show completedCount dbC2 devW.id "billboard" = 5 from rfl]
    decide
  exact ⟨hcount,
    billboard_slots_exhausted_conflict userW 0 none bodyBillboard ("pix") dbC2
      devW devW billboardItem rfl (by decide) (by decide) rfl rfl rfl
      (Or.inl rfl) (by decide) (by decide) hcount⟩

/-- Claim C3 (witness): developer 1 already owns a completed helipad
purchase; a second helipad checkout answers 409 `Already owned` and the
database is unchanged. -/
theorem duplicate_item_conflict_witness :
    dbOwned.purchases.find? (fun p =>
      p.developer_id == devW.id && p.item_id == bodyHelipad.item_id
        && p.status == "completed") = some ownedRow ∧
    checkout (some userW) 0 none (some bodyHelipad) ("pix") dbOwned =
      (Res.error 409 ("Already owned"), dbOwned) :=
  ⟨by decide,
   duplicate_item_conflict userW 0 none bodyHelipad ("pix") dbOwned devW
     helipadItem ownedRow rfl (by decide) (by decide) rfl rfl (by decide)
     (by decide) (Or.inl rfl) (by decide) (by decide)⟩

/-- Claim C6 (witness): with a stale pending helipad purchase on file,
a fresh helipad checkout deletes the stale row and appends a new
pending purchase with the next id. -/
theorem stale_pending_deleted_and_recreated_witness :
    ownershipGate dbPending devW bodyHelipad.item_id = none ∧
    dbPending.purchases.find? (fun p =>
      p.developer_id == devW.id && p.item_id == bodyHelipad.item_id
        && p.status == "pending") = some pendRow ∧
    (∃ row : Purchases.Purchase,
      row.developer_id = devW.id ∧ row.item_id = bodyHelipad.item_id ∧
      row.status = "pending" ∧ row.id = dbPending.nextId ∧
      checkout (some userW) 0 none (some bodyHelipad) ("pix") dbPending =
        (Res.ok dbPending.nextId,
         { dbPending with
            purchases := (dbPending.purchases.filter fun q => !(q.id == pendRow.id))
              ++ [row],
            nextId := dbPending.nextId + 1 })) :=
  ⟨by decide, by decide,
   stale_pending_deleted_and_recreated userW 0 none bodyHelipad ("pix") dbPending
     devW helipadItem pendRow rfl (by decide) (by decide) rfl rfl (by decide)
     (Or.inl rfl) (by decide) (by decide) (by decide) (by decide)⟩

end Checkout

namespace Kudos

/-- Claim C9 (counterexample): when the giver has already given 19
kudos today, the first request to a new receiver succeeds but the
identical second request is rejected by the daily-limit check (which
runs before the duplicate-key insert and counts the row the first
request created), answering 429 instead of `ok: true`. -/
theorem second_kudos_hits_daily_limit :
    (giveKudos (some userK) true (some ("bob")) ("d") stK).1 = KRes.ok ∧
    giveKudos (some userK) true (some ("bob")) ("d")
        (giveKudos (some userK) true (some ("bob")) ("d") stK).2 =
      (KRes.error 429 ("Daily kudos limit reached (20/day)"),
       (giveKudos (some userK) true (some ("bob")) ("d") stK).2) := by
  decide

theorem find?_incrementKudos (devs : List KDev) (rid : Nat) (s : String) :
    (incrementKudos devs rid).find? (fun d => d.github_login == s) =
      (devs.find? (fun d => d.github_login == s)).map
        (fun d => if d.id == rid then { d with kudos_count := d.kudos_count + 1 } else d) := by
  unfold incrementKudos
  rw [List.find?_map]
  have hp : ((fun d : KDev => d.github_login == s) ∘ (fun d : KDev =>
      if d.id == rid then { d with kudos_count := d.kudos_count + 1 } else d)) =
      (fun d : KDev => d.github_login == s) := by
    funext d
    by_cases h : (d.id == rid) = true
    · simp only [Function.comp_apply, if_pos h]
    · simp only [Function.comp_apply, if_neg h]
  rw [hp]

/-- Claim C9 (amended): giving kudos twice to the same receiver on the
same day is idempotent at the public interface PROVIDED the giver has
given at most 18 other kudos that day: both requests answer `ok`, the
receiver's `kudos_count` is incremented exactly once, exactly one feed
event is emitted, and the second request leaves the state unchanged. -/
theorem duplicate_kudos_idempotent
    (u : Checkout.User) (recvLogin today : String) (st : KState)
    (giver receiver : KDev)
    (hgiver : st.developers.find? (fun d => d.github_login == Checkout.loginOf u)
      = some giver)
    (hclaimed : giver.claimed = true)
    (hrecv : st.developers.find? (fun d =>
      d.github_login == Checkout.jsToLower recvLogin) = some receiver)
    (hne : giver.id ≠ receiver.id)
    (hlimit : todayCount st giver.id today ≤ 18)
    (hdup : (KudosRow.mk giver.id receiver.id today) ∉ st.kudos) :
    giveKudos (some u) true (some recvLogin) today st =
      (KRes.ok, nextState st giver.id receiver.id today) ∧
    giveKudos (some u) true (some recvLogin) today
        (nextState st giver.id receiver.id today) =
      (KRes.ok, nextState st giver.id receiver.id today) := by
  constructor
  · unfold giveKudos
    simp only [Bool.not_true, Bool.false_eq_true, if_false, hgiver, hclaimed,
      hrecv]
    rw [if_neg (by simp [hne])]
    rw [if_neg (by omega)]
    rw [if_neg (by simp [kudosDuplicate, hdup])]
    rfl
  · have hgiver1 : (nextState st giver.id receiver.id today).developers.find?
        (fun d => d.github_login == Checkout.loginOf u) = some giver := by
      show (incrementKudos st.developers receiver.id).find? _ = _
      rw [find?_incrementKudos, hgiver, Option.map_some']
      rw [if_neg (by simp [hne])]
    have hrecv1 : (nextState st giver.id receiver.id today).developers.find?
        (fun d => d.github_login == Checkout.jsToLower recvLogin) =
        some { receiver with kudos_count := receiver.kudos_count + 1 } := by
      show (incrementKudos st.developers receiver.id).find? _ = _
      rw [find?_incrementKudos, hrecv, Option.map_some']
      rw [if_pos (by simp)]
    have hcount1 : todayCount (nextState st giver.id receiver.id today)
        giver.id today = todayCount st giver.id today + 1 := by
      unfold todayCount nextState
      simp only [List.filter_append, List.length_append]
      rw [show (List.filter (fun r => r.giver_id == giver.id && r.given_date == today)
        [(⟨giver.id, receiver.id, today⟩ : KudosRow)]) =
        [(⟨giver.id, receiver.id, today⟩ : KudosRow)] by simp]
      simp
    unfold giveKudos
    simp only [Bool.not_true, Bool.false_eq_true, if_false, hgiver1, hclaimed,
      hrecv1]
    rw [if_neg (by simp [hne])]
    rw [if_neg (by rw [hcount1]; omega)]
    rw [if_pos (by
      simp only [kudosDuplicate, decide_eq_true_eq]
      show (⟨giver.id, receiver.id, today⟩ : KudosRow) ∈
        st.kudos ++ [(⟨giver.id, receiver.id, today⟩ : KudosRow)]
      exact List.mem_append_right _ (List.mem_singleton.mpr rfl))]

/-- Claim C9 (witness): the amended idempotence applied to a concrete
two-developer state with no prior kudos. -/
theorem duplicate_kudos_idempotent_witness :
    todayCount stK0 aliceK.id ("d") ≤ 18 ∧
    (KudosRow.mk aliceK.id bobK.id ("d")) ∉ stK0.kudos ∧
    giveKudos (some userK) true (some ("bob")) ("d") stK0 =
      (KRes.ok, nextState stK0 aliceK.id bobK.id ("d")) ∧
    giveKudos (some userK) true (some ("bob")) ("d")
        (nextState stK0 aliceK.id bobK.id ("d")) =
      (KRes.ok, nextState stK0 aliceK.id bobK.id ("d")) :=
  ⟨by decide, by decide,
   (duplicate_kudos_idempotent userK ("bob") ("d") stK0 aliceK bobK
     (by decide) rfl (by decide) (by decide) (by decide) (by decide)).1,
   (duplicate_kudos_idempotent userK ("bob") ("d") stK0 aliceK bobK
     (by decide) rfl (by decide) (by decide) (by decide) (by decide)).2⟩

end Kudos

end GitCity
